import Mathlib

/-!
Shallow embedding in Lean 4 of the core logic of the `chatguru-mcp` server
(`index.js`): the resilient request client (`chatguruRequest`, retry with
exponential backoff and HTTP-status classification), the phone normalizer
(`normalizePhone`), the session-expiry check (`isLoginPage`), and the two
Playwright scrape extractions (`chatguru_read_messages`, `chatguru_list_chats`):
the lazy-load scroll loops, the DOM message walk and the chat-card walk.

JavaScript effects are made explicit: a run of the request client is a pure
function of the sequence of per-attempt outcomes (network error or an HTTP
response); the DOM is a list of abstract nodes carrying the fields the code
queries.  JavaScript truthiness is modelled by `JVal.truthy`; strict equality
`=== false` is modelled as equality with `JVal.jbool false`.
-/

/-- A JSON-ish JavaScript value, as far as the code inspects one: the
`success`, `error` and `message` fields of a decoded API body.  `undef`
stands for an absent field. -/
inductive JVal where
  | undef
  | jnull
  | jbool (b : Bool)
  | jnum (n : Int)
  | jstr (s : String)
deriving DecidableEq, Repr

/-- JavaScript truthiness of a `JVal` (NaN is not representable here). -/
def JVal.truthy : JVal → Bool
  | .undef => false
  | .jnull => false
  | .jbool b => b
  | .jnum n => n != 0
  | .jstr s => s != ""

/-- `String(v)`: how a `JVal` prints when passed to `new Error(v)`. -/
def JVal.toDisplayString : JVal → String
  | .undef => "undefined"
  | .jnull => "null"
  | .jbool b => if b then "true" else "false"
  | .jnum n => toString n
  | .jstr s => s

/-- JavaScript `a || b` on `JVal`s. -/
def jsOr (a b : JVal) : JVal := if a.truthy then a else b

/-- The decoded JSON body of an API response, restricted to the fields the
client reads (`data.success`, `data.error`, `data.message`).  An absent
field is `JVal.undef`. -/
structure ApiBody where
  success : JVal
  error : JVal
  message : JVal
deriving DecidableEq, Repr

/-- `index.js` line 33: `RETRYABLE_STATUSES = [408, 429, 500, 502, 503, 504]`. -/
def RETRYABLE_STATUSES : List Nat := [408, 429, 500, 502, 503, 504]

/-- `response.ok`: HTTP status in the inclusive range 200-299. -/
def httpOk (status : Nat) : Bool := 200 ≤ status && status ≤ 299

/-- `RETRYABLE_STATUSES.includes(status)`. -/
def isRetryable (status : Nat) : Bool := RETRYABLE_STATUSES.contains status

/-- `friendlyError(status, defaultMsg)` from `index.js` lines 35-46:
`messages[status] || defaultMsg || ` the generic template.  A missing map
entry is the empty string here; JS falsiness of the empty string is modelled
explicitly. -/
def friendlyError (status : Nat) (defaultMsg : Option String) : String :=
  let m : String :=
    if status = 401 then "Chave de API inválida. Verifique a variável CHATGURU_API_KEY."
    else if status = 403 then "Sem permissão para acessar este recurso no ChatGuru."
    else if status = 404 then "Recurso não encontrado no ChatGuru."
    else if status = 429 then "Limite de requisições atingido. Tente novamente em alguns segundos."
    else if status = 500 then "Erro interno do servidor ChatGuru. Tente novamente."
    else if status = 502 then "ChatGuru temporariamente indisponível. Tente novamente."
    else if status = 503 then "ChatGuru em manutenção. Tente novamente em instantes."
    else ""
  if m ≠ "" then m
  else
    match defaultMsg with
    | some d => if d ≠ "" then d else s!"Erro {status} na API do ChatGuru."
    | none => s!"Erro {status} na API do ChatGuru."

/-- `Math.min(1000 * Math.pow(2, attempt - 1), 8000)`: the backoff delay
slept after a failed attempt (lines 113 and 122). -/
def backoffDelay (attempt : Nat) : Nat := min (1000 * 2 ^ (attempt - 1)) 8000

/-- What one `fetch` attempt yields: either the promise rejects (network
error with a message), or an HTTP response arrives with a status and a
decoded body. -/
inductive AttemptOutcome where
  | netErr (msg : String)
  | http (status : Nat) (body : ApiBody)
deriving DecidableEq, Repr

/-- An attempt outcome that the client treats as retryable: a network error,
or an HTTP response that is not ok and whose status is in
`RETRYABLE_STATUSES`. -/
def retryFails : AttemptOutcome → Bool
  | .netErr _ => true
  | .http status _ => !httpOk status && isRetryable status

/-- How a run of `chatguruRequest` ends: a returned body, a thrown `Error`
with its message, or `undef` — the loop finished without returning or
throwing (only possible when `retries = 0`), so the JS function returns
`undefined`. -/
inductive ReqResult where
  | success (body : ApiBody)
  | thrown (msg : String)
  | undef
deriving DecidableEq, Repr

/-- Observable trace of one run of `chatguruRequest`: the final result, the
number of attempts actually made, and the backoff delays slept, in order. -/
structure RunTrace where
  result : ReqResult
  attempts : Nat
  delays : List Nat
deriving DecidableEq, Repr

/-- The retry loop of `chatguruRequest` (`index.js` lines 103-137), from
attempt number `attempt` on, driven by the outcome of each attempt.  `fuel`
bounds the recursion; it is always at least `retries - attempt + 1` at the
top-level call, so it never runs out before the loop condition does. -/
def chatguruGo (outcomes : Nat → AttemptOutcome) (retries : Nat) :
    Nat → Nat → RunTrace
  | _, 0 => ⟨.undef, 0, []⟩
  | attempt, fuel + 1 =>
    if retries < attempt then ⟨.undef, attempt - 1, []⟩
    else
      match outcomes attempt with
      | .netErr m =>
        if attempt < retries then
          let rest := chatguruGo outcomes retries (attempt + 1) fuel
          ⟨rest.result, rest.attempts, backoffDelay attempt :: rest.delays⟩
        else
          ⟨.thrown s!"Erro de conexão com ChatGuru após {retries} tentativas: {m}",
            attempt, []⟩
      | .http status body =>
        if !httpOk status && isRetryable status && attempt < retries then
          let rest := chatguruGo outcomes retries (attempt + 1) fuel
          ⟨rest.result, rest.attempts, backoffDelay attempt :: rest.delays⟩
        else if !httpOk status then
          ⟨.thrown (friendlyError status none), attempt, []⟩
        else if body.success = JVal.jbool false then
          ⟨.thrown (jsOr body.error (jsOr body.message
              (.jstr "Erro desconhecido na API do ChatGuru."))).toDisplayString,
            attempt, []⟩
        else
          ⟨.success body, attempt, []⟩

/-- A full run of `chatguruRequest` with `retries` as the attempt budget
(the `retries = 3` default of the source), as a function of the outcome of
each attempt. -/
def chatguruRequest (outcomes : Nat → AttemptOutcome) (retries : Nat) : RunTrace :=
  chatguruGo outcomes retries 1 (retries + 1)

/-- The error a run surfaces when the final attempt also fails retryably:
the connection error naming the number of attempts for a network failure,
or the classified HTTP error for a retryable status. -/
def finalClassify (outcomes : Nat → AttemptOutcome) (retries : Nat) : ReqResult :=
  match outcomes retries with
  | .netErr m =>
    .thrown s!"Erro de conexão com ChatGuru após {retries} tentativas: {m}"
  | .http status _ => .thrown (friendlyError status none)

/-- The message of the error thrown on a business failure
(`data.error || data.message || "Erro desconhecido na API do ChatGuru."`). -/
def businessErrMsg (body : ApiBody) : String :=
  (jsOr body.error (jsOr body.message
    (.jstr "Erro desconhecido na API do ChatGuru."))).toDisplayString

/-- The backoff delays slept for attempts `a, a+1, ..., a+n-1`. -/
def delaysFrom (a : Nat) : Nat → List Nat
  | 0 => []
  | n + 1 => backoffDelay a :: delaysFrom (a + 1) n

theorem delaysFrom_length (a n : Nat) : (delaysFrom a n).length = n := by
  induction n generalizing a with
  | zero => rfl
  | succ n ih => simp [delaysFrom, ih]

theorem delaysFrom_getElem? (n : Nat) :
    ∀ a i, (delaysFrom a n)[i]? = if i < n then some (backoffDelay (a + i)) else none := by
  induction n with
  | zero => intro a i; simp [delaysFrom]
  | succ n ih =>
    intro a i
    cases i with
    | zero => simp [delaysFrom]
    | succ i =>
      simp only [delaysFrom, List.getElem?_cons_succ, ih (a + 1) i]
      by_cases h : i < n
      · simp [h, Nat.succ_lt_succ h, Nat.add_assoc, Nat.add_comm 1 i]
      · simp [h, fun hc => h (Nat.lt_of_succ_lt_succ hc)]

/-- Prepending delays to a run trace. -/
def prependDelays (ds : List Nat) (t : RunTrace) : RunTrace :=
  ⟨t.result, t.attempts, ds ++ t.delays⟩

/-- Skipping a prefix of retryably-failing attempts: if every attempt from
`a` up to (excluding) `j` fails retryably, the run from attempt `a` is the
run from attempt `j` with the backoff delays of attempts `a..j-1` in front. -/
theorem chatguruGo_skip (outcomes : Nat → AttemptOutcome) (retries : Nat) :
    ∀ fuel a j, a ≤ j → j ≤ retries →
    (∀ k, a ≤ k → k < j → retryFails (outcomes k) = true) →
    j - a < fuel →
    chatguruGo outcomes retries a fuel =
      prependDelays (delaysFrom a (j - a))
        (chatguruGo outcomes retries j (fuel - (j - a))) := by
  intro fuel
  induction fuel with
  | zero => intro a j _ _ _ hfuel; omega
  | succ fuel ih =>
    intro a j haj hjr hall hfuel
    rcases Nat.eq_or_lt_of_le haj with h | h
    · subst h
      simp [delaysFrom, prependDelays]
    · have ha_lt : a < retries := Nat.lt_of_lt_of_le h hjr
      have hnot : ¬ retries < a := by omega
      have hfail := hall a (Nat.le_refl a) h
      have hrec := ih (a + 1) j h hjr
        (fun k hk1 hk2 => hall k (by omega) hk2) (by omega)
      have hja : j - a = (j - (a + 1)) + 1 := by omega
      cases houtcome : outcomes a with
      | netErr m =>
        simp only [chatguruGo, hnot, if_false, houtcome, ha_lt, if_true, hrec]
        simp [prependDelays, hja, delaysFrom]
      | http status body =>
        have hretry : (!httpOk status && isRetryable status) = true := by
          have := hfail
          simp [retryFails, houtcome] at this
          simp [this]
        simp only [chatguruGo, hnot, if_false, houtcome]
        rw [if_pos (by simp [hretry, ha_lt])]
        simp only [hrec]
        simp [prependDelays, hja, delaysFrom]

/-- The final attempt of an exhausted retry budget: at `attempt = retries`
(with `retries ≥ 1`), a retryably-failing outcome is surfaced as the
classified error. -/
theorem chatguruGo_final (outcomes : Nat → AttemptOutcome) (retries fuel : Nat)
    (hfuel : 1 ≤ fuel)
    (hfail : retryFails (outcomes retries) = true) :
    chatguruGo outcomes retries retries fuel =
      ⟨finalClassify outcomes retries, retries, []⟩ := by
  cases fuel with
  | zero => omega
  | succ fuel =>
    have hnot : ¬ retries < retries := Nat.lt_irrefl retries
    cases houtcome : outcomes retries with
    | netErr m =>
      simp [chatguruGo, hnot, houtcome, finalClassify]
    | http status body =>
      have hok : httpOk status = false := by
        simp [retryFails, houtcome] at hfail
        simp [hfail]
      simp [chatguruGo, hnot, houtcome, hok, finalClassify]

/-- `s.startsWith(pat)`, computed on the character lists (the library
version does not reduce inside the kernel). -/
def strStartsWith (s pat : String) : Bool := pat.data.isPrefixOf s.data

/-- `s.endsWith(pat)`, computed on the character lists. -/
def strEndsWith (s pat : String) : Bool := pat.data.isSuffixOf s.data

/-- `s.trim()`: strip whitespace from both ends, computed on the character
lists. -/
def jsTrim (s : String) : String :=
  String.mk (((s.data.dropWhile Char.isWhitespace).reverse.dropWhile
    Char.isWhitespace).reverse)

/-- `input.replace(/\D/g, "")`: keep only the ASCII digits. -/
def stripNonDigits (s : String) : String := String.mk (s.data.filter Char.isDigit)

/-- `normalizePhone` from `index.js` lines 56-72. -/
def normalizePhone (input : String) : String :=
  let digits := stripNonDigits input
  if strStartsWith digits "55" = true ∧ 12 ≤ digits.length then digits
  else if 10 ≤ digits.length ∧ digits.length ≤ 11 then "55" ++ digits
  else digits

/-- `a.includes(b)`: substring containment, as JavaScript `String.includes`. -/
def strContains (s pat : String) : Bool :=
  (List.range (s.data.length + 1)).any (fun i => pat.data.isPrefixOf (s.data.drop i))

/-- `isLoginPage(url)` from `index.js` lines 356-358:
`url.includes("login") || url.includes("signin") || url.endsWith("/")`. -/
def isLoginPage (url : String) : Bool :=
  strContains url "login" || strContains url "signin" || strEndsWith url "/"

/-- The path component of an absolute URL: everything from the first `/`
after the scheme-and-host part (no query or fragment handling; used only to
state what "the bare root path" means for concrete URLs). -/
def urlPath (url : String) : String :=
  String.mk ((url.data.drop 8).dropWhile (fun c => c ≠ '/'))

/-- `x?.trim() || ""` for an optional string `x` (absent element or absent
text yields the empty string). -/
def trimOrEmpty : Option String → String
  | some t => jsTrim t
  | none => ""

/-- One extracted chat message (`{ remetente, horario, data, texto }`). -/
structure ChatMessage where
  remetente : String
  horario : String
  data : String
  texto : String
deriving DecidableEq, Repr

/-- The `.msg-container` node of a rendered message row, restricted to what
the extraction queries: the `bg-sent-msg` class, the optional
`span.msg-contentT` inner text, whether an `audio` element is present, and
the optional `span.msg-timestamp` text. -/
structure MsgContainer where
  isOutgoing : Bool
  contentText : Option String
  hasAudio : Bool
  timestampText : Option String
deriving DecidableEq, Repr

/-- One child of the `#chat_messages_app > div` container: a date-group
label (class `msg-data`), a message row (class `row_msg`, whose
`.msg-container` may be absent), or any other node. -/
inductive MsgChild where
  | dateLabel (text : String)
  | rowMsg (container : Option MsgContainer)
  | other
deriving DecidableEq, Repr

/-- The DOM walk of `chatguru_read_messages` (`index.js` lines 491-518):
thread the current date-group label, classify each row's sender, take the
trimmed text, substitute the `"[Áudio]"` placeholder for text-less audio
rows, and skip text-less rows without audio. -/
def collectMsgs : List MsgChild → String → List ChatMessage
  | [], _ => []
  | .dateLabel t :: rest, _ => collectMsgs rest (jsTrim t)
  | .other :: rest, d => collectMsgs rest d
  | .rowMsg none :: rest, d => collectMsgs rest d
  | .rowMsg (some c) :: rest, d =>
    let remetente := if c.isOutgoing then "atendente" else "cliente"
    let texto := trimOrEmpty c.contentText
    if texto = "" then
      if c.hasAudio then
        { remetente := remetente, horario := trimOrEmpty c.timestampText,
          data := d, texto := "[Áudio]" } :: collectMsgs rest d
      else collectMsgs rest d
    else
      { remetente := remetente, horario := trimOrEmpty c.timestampText,
        data := d, texto := texto } :: collectMsgs rest d

/-- JavaScript `l.slice(-n)` for a nonnegative `n`: the trailing window of
length `n` — except that `slice(-0)` is `slice(0)`, the whole list. -/
def jsSliceLast (l : List α) (n : Nat) : List α :=
  if n = 0 then l else l.drop (l.length - n)

/-- The full collected message sequence of a conversation DOM (the
`allMsgs` array): empty when the container `#chat_messages_app > div` is
absent. -/
def collectedMessages (container : Option (List MsgChild)) : List ChatMessage :=
  match container with
  | none => []
  | some children => collectMsgs children ""

/-- The message extraction of `chatguru_read_messages` (the
`page.evaluate` of lines 486-521): walk the container children and return
`allMsgs.slice(-maxMessages)`. -/
def extractMessages (container : Option (List MsgChild)) (maxMessages : Nat) :
    List ChatMessage :=
  jsSliceLast (collectedMessages container) maxMessages

/-- The page state a scrape operation sees after its full-page navigation:
the resulting URL and the message container (if present). -/
structure ScrapeEnv where
  urlAfterNav : String
  dom : Option (List MsgChild)
deriving DecidableEq, Repr

/-- What a `chatguru_read_messages` call reports (error paths raised by the
browser itself are out of scope of the claims). -/
inductive ScrapeResult where
  | sessionExpired (msg : String)
  | noMessages (msg : String)
  | messages (msgs : List ChatMessage)
deriving DecidableEq, Repr

/-- The session-expired message of the scrape tools. -/
def expiredMsg (server : String) : String :=
  "Sessão expirada. Execute `CHATGURU_SERVER=" ++ server ++
    " node login.js` para renovar."

/-- The post-navigation logic of `chatguru_read_messages` (lines 443-533):
report session expiry when `isLoginPage` holds on the resulting URL,
otherwise extract and either report an empty chat or return the messages. -/
def readMessages (server chatId : String) (env : ScrapeEnv) (limit : Nat) :
    ScrapeResult :=
  if isLoginPage env.urlAfterNav then .sessionExpired (expiredMsg server)
  else
    let msgs := extractMessages env.dom limit
    if msgs.length = 0 then
      .noMessages s!"Nenhuma mensagem encontrada no chat {chatId}. O chat pode estar vazio ou a estrutura da página mudou."
    else .messages msgs

/-- Why a lazy-load scroll loop stopped: the count reached the cap, the
count matched the remembered previous count, or the 10-iteration bound ran
out. -/
inductive StopReason where
  | reachedLimit
  | noGrowth
  | exhausted
deriving DecidableEq, Repr

/-- The conversation scroll loop of `chatguru_read_messages` (lines
461-483), driven by the `.row_msg` count observed at each iteration
(`counts k` is `currentCount` at `scrollAttempt = k`).  Returns the number
of iterations that performed a scroll and why the loop stopped.  Mirrors:
`if (currentCount >= limit) break; if (currentCount === msgCountBefore &&
scrollAttempt > 1) break;` with `msgCountBefore` starting at 0. -/
def msgScrollGo (counts : Nat → Nat) (limit : Nat) :
    Nat → Nat → Nat → Nat × StopReason
  | attempt, _, 0 => (attempt, .exhausted)
  | attempt, before, fuel + 1 =>
    let c := counts attempt
    if limit ≤ c then (attempt, .reachedLimit)
    else if c = before ∧ 1 < attempt then (attempt, .noGrowth)
    else msgScrollGo counts limit (attempt + 1) c fuel

/-- The conversation scroll loop, started as in the source:
`msgCountBefore = 0`, `scrollAttempt` from 0, at most 10 iterations. -/
def msgScrollLoop (counts : Nat → Nat) (limit : Nat) : Nat × StopReason :=
  msgScrollGo counts limit 0 0 10

/-- The chat-list scroll loop of `chatguru_list_chats` (lines 672-685),
driven by the `.list__user-card` count observed at each iteration.
Mirrors: `if (cards.length >= targetCount || cards.length === prevCount)
break;` with `prevCount` starting at 0. -/
def listScrollGo (counts : Nat → Nat) (target : Nat) :
    Nat → Nat → Nat → Nat × StopReason
  | i, _, 0 => (i, .exhausted)
  | i, prev, fuel + 1 =>
    let c := counts i
    if target ≤ c then (i, .reachedLimit)
    else if c = prev then (i, .noGrowth)
    else listScrollGo counts target (i + 1) c fuel

/-- The chat-list scroll loop, started as in the source. -/
def listScrollLoop (counts : Nat → Nat) (target : Nat) : Nat × StopReason :=
  listScrollGo counts target 0 0 10

/-- The stop condition of the conversation scroll loop at iteration `k`:
count reached the limit, or (from the third iteration on) the count equals
the previous iteration's count. -/
def msgStop (counts : Nat → Nat) (limit k : Nat) : Prop :=
  limit ≤ counts k ∨ (1 < k ∧ counts k = counts (k - 1))

/-- The stop condition of the chat-list scroll loop at iteration `k`: count
reached the target, or the count equals the previous iteration's count
(taken as 0 before the first iteration). -/
def listStop (counts : Nat → Nat) (target k : Nat) : Prop :=
  target ≤ counts k ∨ counts k = (if k = 0 then 0 else counts (k - 1))

/-- The `.user-msg span[title]` element of a chat card: the selector
requires the `title` attribute, whose value may still be empty; the visible
text is the fallback. -/
structure MsgSpan where
  titleAttr : String
  text : Option String
deriving DecidableEq, Repr

/-- One `.list__user-card` node, restricted to the fields the extraction
queries.  `vueChatId` collapses the framework-internal fallback probe
(`card.__vue__` chain) to its final string result, `none` when the probe
fails or yields nothing. -/
structure ChatCard where
  nameText : Option String
  msgSpan : Option MsgSpan
  statusText : Option String
  unreadText : Option String
  hourText : Option String
  dataId : Option String
  dataChatId : Option String
  dataChat : Option String
  vueChatId : Option String
deriving DecidableEq, Repr

/-- One extracted chat summary record. -/
structure ChatSummary where
  contact_name : String
  status : String
  last_message : String
  timestamp : String
  unread_count : Int
  chat_id : String
deriving DecidableEq, Repr

/-- JavaScript `a || b` where `a` is an optional string (`null`/`undefined`
or present) and the empty string is falsy. -/
def jsOrOpt (a : Option String) (b : String) : String :=
  match a with
  | some s => if s = "" then b else s
  | none => b

/-- `parseInt(s, 10)` on an already-trimmed string: an optional sign
followed by leading decimal digits; `none` models `NaN`. -/
def jsParseInt (s : String) : Option Int :=
  let core : List Char → Option Nat := fun l =>
    let ds := l.takeWhile Char.isDigit
    if ds.isEmpty then none
    else some (ds.foldl (fun a c => 10 * a + (c.toNat - 48)) 0)
  match s.data with
  | '-' :: rest => (core rest).map (fun n => -(n : Int))
  | '+' :: rest => (core rest).map (fun n => (n : Int))
  | l => (core l).map (fun n => (n : Int))

/-- The record built from one chat card (lines 693-741). -/
def cardRecord (card : ChatCard) : ChatSummary :=
  let contactName := trimOrEmpty card.nameText
  let lastMessage :=
    match card.msgSpan with
    | none => ""
    | some sp => if sp.titleAttr ≠ "" then sp.titleAttr else trimOrEmpty sp.text
  let status0 := trimOrEmpty card.statusText
  let chatStatus := if status0 = "EM ATENDI" then "EM ATENDIMENTO" else status0
  let unreadCount : Int :=
    match card.unreadText with
    | none => 0
    | some t =>
      match jsParseInt (jsTrim t) with
      | some n => if n = 0 then 0 else n
      | none => 0
  let timestamp := trimOrEmpty card.hourText
  let chatId0 := jsOrOpt card.dataId (jsOrOpt card.dataChatId (jsOrOpt card.dataChat ""))
  let chatId := if chatId0 = "" then jsOrOpt card.vueChatId "" else chatId0
  { contact_name := contactName, status := chatStatus, last_message := lastMessage,
    timestamp := timestamp, unread_count := unreadCount, chat_id := chatId }

/-- The card walk of `chatguru_list_chats` (lines 689-744): one record per
card, stopping as soon as the result already holds `maxChats` records.
`len` is `result.length` at loop entry. -/
def extractChatsGo : List ChatCard → Nat → Nat → List ChatSummary
  | [], _, _ => []
  | card :: rest, maxChats, len =>
    if maxChats ≤ len then []
    else cardRecord card :: extractChatsGo rest maxChats (len + 1)

/-- The full card extraction. -/
def extractChats (cards : List ChatCard) (maxChats : Nat) : List ChatSummary :=
  extractChatsGo cards maxChats 0

/-- `index.js` line 569: `const effectiveLimit = Math.min(limit, 100);`. -/
def effectiveLimit (limit : Nat) : Nat := min limit 100

/-- The chat-list extraction as invoked by `chatguru_list_chats`: the card
walk capped at the effective limit. -/
def listChatsExtract (cards : List ChatCard) (limit : Nat) : List ChatSummary :=
  extractChats cards (effectiveLimit limit)

theorem backoffDelay_le_cap (k : Nat) : backoffDelay k ≤ 8000 := Nat.min_le_right _ _

theorem backoffDelay_lt_succ (k : Nat) (h1 : 1 ≤ k) (h2 : backoffDelay k < 8000) :
    backoffDelay k < backoffDelay (k + 1) := by
  have hk : (2 : Nat) ^ (k + 1 - 1) = 2 ^ (k - 1) * 2 := by
    rw [← pow_succ]
    congr 1
    omega
  have hx : 0 < 1000 * 2 ^ (k - 1) := by positivity
  unfold backoffDelay at h2 ⊢
  rw [hk]
  rcases Nat.lt_or_ge (1000 * 2 ^ (k - 1)) 8000 with h | h
  · rw [Nat.min_eq_left (Nat.le_of_lt h)]
    refine Nat.lt_min.mpr ⟨?_, h⟩
    rw [← Nat.mul_assoc]
    omega
  · rw [Nat.min_eq_right h] at h2
    omega

/-- C1: with `maxAttempts = retries ≥ 1` and every attempt failing
retryably (network failure or retryable HTTP status), `chatguruRequest`
makes exactly `retries` attempts, surfaces the classified error of the
final attempt (a thrown error, never a silent `undefined`), and the delay
slept after attempt `k < retries` is `min(1000·2^(k-1), 8000)` ms — a
sequence that strictly increases until it reaches the 8000 ms cap. -/
theorem C1_retryExhaustion (outcomes : Nat → AttemptOutcome) (retries : Nat)
    (h1 : 1 ≤ retries)
    (hall : ∀ k, 1 ≤ k → k ≤ retries → retryFails (outcomes k) = true) :
    (chatguruRequest outcomes retries).attempts = retries ∧
    (chatguruRequest outcomes retries).result = finalClassify outcomes retries ∧
    (∃ m, (chatguruRequest outcomes retries).result = ReqResult.thrown m) ∧
    (chatguruRequest outcomes retries).delays.length = retries - 1 ∧
    (∀ k, 1 ≤ k → k < retries →
      (chatguruRequest outcomes retries).delays[k - 1]? =
        some (min (1000 * 2 ^ (k - 1)) 8000)) ∧
    (∀ k, 1 ≤ k → backoffDelay k < 8000 → backoffDelay k < backoffDelay (k + 1)) ∧
    (∀ k, backoffDelay k ≤ 8000) := by
  have hskip := chatguruGo_skip outcomes retries (retries + 1) 1 retries h1
    (Nat.le_refl _) (fun k hk1 hk2 => hall k hk1 (Nat.le_of_lt hk2)) (by omega)
  have hfinal := chatguruGo_final outcomes retries (retries + 1 - (retries - 1))
    (by omega) (hall retries h1 (Nat.le_refl _))
  have hrun : chatguruRequest outcomes retries =
      ⟨finalClassify outcomes retries, retries, delaysFrom 1 (retries - 1)⟩ := by
    rw [chatguruRequest, hskip, hfinal]
    simp [prependDelays]
  refine ⟨by rw [hrun], by rw [hrun], ?_, ?_, ?_,
    backoffDelay_lt_succ, backoffDelay_le_cap⟩
  · rw [hrun]
    unfold finalClassify
    cases outcomes retries with
    | netErr m => exact ⟨_, rfl⟩
    | http s b => exact ⟨_, rfl⟩
  · rw [hrun]
    exact delaysFrom_length 1 (retries - 1)
  · intro k hk1 hk2
    rw [hrun]
    show (delaysFrom 1 (retries - 1))[k - 1]? = _
    rw [delaysFrom_getElem? (retries - 1) 1 (k - 1), if_pos (by omega)]
    have hk : 1 + (k - 1) = k := by omega
    rw [hk]
    rfl

theorem C1_retryExhaustion_witness :
    (chatguruRequest (fun _ => .http 503 ⟨.undef, .undef, .undef⟩) 3).attempts = 3 ∧
    (chatguruRequest (fun _ => .http 503 ⟨.undef, .undef, .undef⟩) 3).result =
      ReqResult.thrown "ChatGuru em manutenção. Tente novamente em instantes." ∧
    (chatguruRequest (fun _ => .http 503 ⟨.undef, .undef, .undef⟩) 3).delays[0]? =
      some 1000 ∧
    (chatguruRequest (fun _ => .http 503 ⟨.undef, .undef, .undef⟩) 3).delays[1]? =
      some 2000 := by
  have h := C1_retryExhaustion (fun _ => .http 503 ⟨.undef, .undef, .undef⟩) 3
    (by decide) (fun _ _ _ => rfl)
  refine ⟨h.1, h.2.1.trans (by decide), ?_, ?_⟩
  · exact (h.2.2.2.2.1 1 (by decide) (by decide)).trans (by decide)
  · exact (h.2.2.2.2.1 2 (by decide) (by decide)).trans (by decide)

/-- C2 counterexample: the retryable-status set has six members, not five,
and status 504 — outside any five-element reading of the claim — is in
fact retried: with two consecutive 504 responses and `retries = 2` the
client makes 2 attempts with a backoff delay in between, instead of
failing immediately on the first attempt. -/
theorem C2_counterexample :
    RETRYABLE_STATUSES.length = 6 ∧
    (chatguruRequest (fun _ => .http 504 ⟨.undef, .undef, .undef⟩) 2).attempts = 2 ∧
    (chatguruRequest (fun _ => .http 504 ⟨.undef, .undef, .undef⟩) 2).delays = [1000] := by
  refine ⟨rfl, by decide, by decide⟩

/-- C2 as amended: the retryable set consists of exactly the six statuses
408, 429, 500, 502, 503 and 504; any other non-success status makes the
call fail on the very first attempt — no retry, no delay — with the
classified message, and statuses without a specific mapping fall back to
the generic templated message. -/
theorem C2_amended (outcomes : Nat → AttemptOutcome) (retries status : Nat)
    (body : ApiBody) (h1 : 1 ≤ retries) (hout : outcomes 1 = .http status body)
    (hok : httpOk status = false) (hretry : isRetryable status = false) :
    chatguruRequest outcomes retries =
      ⟨.thrown (friendlyError status none), 1, []⟩ ∧
    (∀ s, isRetryable s = true ↔
      (s = 408 ∨ s = 429 ∨ s = 500 ∨ s = 502 ∨ s = 503 ∨ s = 504)) ∧
    (∀ s, s ∉ ([401, 403, 404, 429, 500, 502, 503] : List Nat) →
      friendlyError s none = s!"Erro {s} na API do ChatGuru.") := by
  refine ⟨?_, ?_, ?_⟩
  · cases retries with
    | zero => omega
    | succ n =>
      simp [chatguruRequest, chatguruGo, hout, hok, hretry]
  · intro s
    simp [isRetryable, RETRYABLE_STATUSES]
  · intro s hs
    simp only [List.mem_cons, List.not_mem_nil, or_false, not_or] at hs
    obtain ⟨n1, n2, n3, n4, n5, n6, n7⟩ := hs
    simp [friendlyError, n1, n2, n3, n4, n5, n6, n7]

theorem C2_amended_witness :
    chatguruRequest (fun _ => .http 418 ⟨.undef, .undef, .undef⟩) 3 =
      ⟨.thrown "Erro 418 na API do ChatGuru.", 1, []⟩ ∧
    isRetryable 408 = true := by
  have h := C2_amended (fun _ => .http 418 ⟨.undef, .undef, .undef⟩) 3 418
    ⟨.undef, .undef, .undef⟩ (by decide) rfl (by decide) (by decide)
  exact ⟨h.1.trans (by decide), (h.2.1 408).mpr (Or.inl rfl)⟩

/-- Evaluating one attempt that got an ok HTTP response whose body carries
`success === false`: the loop throws there, with no further attempt. -/
theorem chatguruGo_business (outcomes : Nat → AttemptOutcome)
    (retries j fuel status : Nat) (body : ApiBody) (hfuel : 1 ≤ fuel)
    (hjr : j ≤ retries) (hj : outcomes j = .http status body)
    (hok : httpOk status = true) (hfail : body.success = JVal.jbool false) :
    chatguruGo outcomes retries j fuel = ⟨.thrown (businessErrMsg body), j, []⟩ := by
  cases fuel with
  | zero => omega
  | succ fuel =>
    simp [chatguruGo, Nat.not_lt.mpr hjr, hj, hok, hfail, businessErrMsg]

/-- C3 counterexample: a decoded body can carry a falsy `success` flag
(here `null`) without being equal to the boolean `false`; on HTTP 200 the
client then returns the body as a success — it does not surface an error —
because the code tests `data.success === false` strictly. -/
theorem C3_counterexample :
    JVal.truthy (ApiBody.mk .jnull (.jstr "plataforma") .undef).success = false ∧
    chatguruRequest (fun _ => .http 200 ⟨.jnull, .jstr "plataforma", .undef⟩) 3 =
      ⟨.success ⟨.jnull, .jstr "plataforma", .undef⟩, 1, []⟩ := by
  exact ⟨by decide, by decide⟩

/-- C3 as amended: for every successful HTTP response whose decoded body
carries a `success` flag strictly equal to the boolean `false`, the client
surfaces an error on that very attempt (after any earlier retryable
failures), never retrying regardless of the remaining budget; the message
is the platform's `error` field verbatim when it is a nonempty string,
falling back to `message` and finally to the generic text only when the
platform supplies none (both fields falsy). -/
theorem C3_amended (outcomes : Nat → AttemptOutcome) (retries j status : Nat)
    (body : ApiBody) (h1 : 1 ≤ j) (h2 : j ≤ retries)
    (hprev : ∀ k, 1 ≤ k → k < j → retryFails (outcomes k) = true)
    (hj : outcomes j = .http status body)
    (hok : httpOk status = true)
    (hfail : body.success = JVal.jbool false) :
    chatguruRequest outcomes retries =
      ⟨.thrown (businessErrMsg body), j, delaysFrom 1 (j - 1)⟩ ∧
    (∀ m, body.error = JVal.jstr m → m ≠ "" → businessErrMsg body = m) ∧
    (JVal.truthy body.error = false → JVal.truthy body.message = false →
      businessErrMsg body = "Erro desconhecido na API do ChatGuru.") := by
  refine ⟨?_, ?_, ?_⟩
  · have hskip := chatguruGo_skip outcomes retries (retries + 1) 1 j h1
      (by omega) (fun k hk1 hk2 => hprev k hk1 hk2) (by omega)
    have hstep := chatguruGo_business outcomes retries j
      (retries + 1 - (j - 1)) status body (by omega) h2 hj hok hfail
    rw [chatguruRequest, hskip, hstep]
    simp [prependDelays]
  · intro m hm hne
    simp [businessErrMsg, jsOr, JVal.truthy, hm, hne, JVal.toDisplayString]
  · intro he hm
    simp [businessErrMsg, jsOr, he, hm, JVal.toDisplayString]

theorem C3_amended_witness :
    chatguruRequest
        (fun k => if k = 1 then .netErr "x"
          else .http 200 ⟨.jbool false, .jstr "Falha de negócio", .undef⟩) 3 =
      ⟨.thrown "Falha de negócio", 2, [1000]⟩ := by
  have h := C3_amended
    (fun k => if k = 1 then .netErr "x"
      else .http 200 ⟨.jbool false, .jstr "Falha de negócio", .undef⟩)
    3 2 200 ⟨.jbool false, .jstr "Falha de negócio", .undef⟩
    (by decide) (by decide)
    (fun k hk1 hk2 => by
      have : k = 1 := by omega
      subst this
      rfl)
    rfl rfl rfl
  exact h.1.trans (by decide)

/-- C4: `normalizePhone` first strips all non-digit characters; if the
digits start with `"55"` and are at least 12 long they are returned
unchanged; otherwise digits of length 10 or 11 get `"55"` prepended;
otherwise the digits are returned unchanged.  (The function is total, so
no exception is possible for any input.) -/
theorem C4_normalizePhone (s : String) :
    (strStartsWith (stripNonDigits s) "55" = true ∧ 12 ≤ (stripNonDigits s).length →
      normalizePhone s = stripNonDigits s) ∧
    (¬(strStartsWith (stripNonDigits s) "55" = true ∧ 12 ≤ (stripNonDigits s).length) →
      ((stripNonDigits s).length = 10 ∨ (stripNonDigits s).length = 11) →
      normalizePhone s = "55" ++ stripNonDigits s) ∧
    (¬(strStartsWith (stripNonDigits s) "55" = true ∧ 12 ≤ (stripNonDigits s).length) →
      ¬((stripNonDigits s).length = 10 ∨ (stripNonDigits s).length = 11) →
      normalizePhone s = stripNonDigits s) := by
  refine ⟨fun h => ?_, fun h1 h2 => ?_, fun h1 h2 => ?_⟩
  · simp only [normalizePhone]
    rw [if_pos h]
  · simp only [normalizePhone]
    rw [if_neg h1, if_pos (by omega)]
  · simp only [normalizePhone]
    rw [if_neg h1, if_neg (by omega)]

theorem C4_normalizePhone_witness :
    normalizePhone "5581991095702" = "5581991095702" ∧
    normalizePhone "81991095702" = "5581991095702" ∧
    normalizePhone "123" = "123" := by
  refine ⟨?_, ?_, ?_⟩
  · exact ((C4_normalizePhone "5581991095702").1 ⟨by decide, by decide⟩).trans (by decide)
  · exact ((C4_normalizePhone "81991095702").2.1 (by decide) (by decide)).trans (by decide)
  · exact ((C4_normalizePhone "123").2.2 (by decide) (by decide)).trans (by decide)

/-- C5 counterexample: stripping the non-digits of `"+55 (81) 91095702"`
leaves the 12 digits `"558191095702"`, so `normalizePhone` does not return
the 13-digit string the claim names. -/
theorem C5_counterexample :
    ¬ normalizePhone "+55 (81) 91095702" = "5581991095702" := by decide

/-- C5 as amended: `normalizePhone "+55 (81) 91095702"` returns exactly
`"558191095702"` (the stripped digits, unchanged: they start with `55` and
have length 12). -/
theorem C5_amended : normalizePhone "+55 (81) 91095702" = "558191095702" := by decide

/-- C6 counterexample: the URL `https://s17.expertintegrado.app/chats/`
neither matches the code's login/sign-in patterns nor has the bare root
path (its path is `/chats/`), yet `isLoginPage` classifies it as an
expired session, because the code tests `url.endsWith("/")` rather than
"is the bare root path".  Consequently a navigation landing there is
reported as session-expired. -/
theorem C6_counterexample :
    isLoginPage "https://s17.expertintegrado.app/chats/" = true ∧
    strContains "https://s17.expertintegrado.app/chats/" "login" = false ∧
    strContains "https://s17.expertintegrado.app/chats/" "signin" = false ∧
    urlPath "https://s17.expertintegrado.app/chats/" = "/chats/" ∧
    ¬ urlPath "https://s17.expertintegrado.app/chats/" = "/" ∧
    readMessages "17" "abc" ⟨"https://s17.expertintegrado.app/chats/", none⟩ 50 =
      .sessionExpired
        "Sessão expirada. Execute `CHATGURU_SERVER=17 node login.js` para renovar." := by
  refine ⟨by decide, by decide, by decide, by decide, by decide, by decide⟩

/-- C6 as amended: after navigation, `chatguru_read_messages` reports
session expiry (and returns zero extracted messages, only the instruction
to re-run the login flow) precisely when the resulting URL contains
`"login"`, contains `"signin"`, or ends with a slash — the last condition
includes, but is broader than, the bare root path. -/
theorem C6_amended (server chatId : String) (env : ScrapeEnv) (limit : Nat) :
    (isLoginPage env.urlAfterNav = true ↔
      (strContains env.urlAfterNav "login" = true ∨
       strContains env.urlAfterNav "signin" = true ∨
       strEndsWith env.urlAfterNav "/" = true)) ∧
    (isLoginPage env.urlAfterNav = true →
      readMessages server chatId env limit = .sessionExpired (expiredMsg server)) ∧
    (isLoginPage env.urlAfterNav = false →
      ∀ msg, readMessages server chatId env limit ≠ .sessionExpired msg) := by
  refine ⟨?_, fun h => ?_, fun h msg => ?_⟩
  · simp [isLoginPage]
    tauto
  · simp [readMessages, h]
  · simp only [readMessages, h]
    rw [if_neg (by simp [h])]
    by_cases hlen : (extractMessages env.dom limit).length = 0
    · simp [hlen]
    · simp [hlen]

theorem C6_amended_witness :
    readMessages "17" "abc" ⟨"https://s17.expertintegrado.app/login", some []⟩ 50 =
      .sessionExpired
        "Sessão expirada. Execute `CHATGURU_SERVER=17 node login.js` para renovar." ∧
    (strContains "https://s17.expertintegrado.app/login" "login" = true ∨
     strContains "https://s17.expertintegrado.app/login" "signin" = true ∨
     strEndsWith "https://s17.expertintegrado.app/login" "/" = true) := by
  have h := C6_amended "17" "abc" ⟨"https://s17.expertintegrado.app/login", some []⟩ 50
  exact ⟨(h.2.1 (by decide)).trans (by decide), (h.1).mp (by decide)⟩

/-- C7 counterexample: with requested limit 0 and one collected message,
the extraction returns that message — `allMsgs.slice(-0)` is `slice(0)`,
the whole array — so "at most `limit` messages" fails at `limit = 0`. -/
theorem C7_counterexample :
    (extractMessages
        (some [.rowMsg (some ⟨false, some "oi", false, some "10:00"⟩)]) 0).length = 1 ∧
    ¬ (extractMessages
        (some [.rowMsg (some ⟨false, some "oi", false, some "10:00"⟩)]) 0).length ≤ 0 := by
  exact ⟨by decide, by decide⟩

/-- C7 as amended: for every collected message sequence and every requested
limit of at least 1, the extraction returns at most `limit` messages, and
the returned list is exactly the trailing window of the full collected
sequence (a suffix, in the collected oldest-first order). -/
theorem C7_trailingWindow (container : Option (List MsgChild)) (limit : Nat)
    (h : 1 ≤ limit) :
    (extractMessages container limit).length ≤ limit ∧
    extractMessages container limit =
      (collectedMessages container).drop ((collectedMessages container).length - limit) := by
  have hne : limit ≠ 0 := by omega
  constructor
  · simp only [extractMessages, jsSliceLast, if_neg hne]
    rw [List.length_drop]
    omega
  · simp only [extractMessages, jsSliceLast, if_neg hne]

theorem C7_trailingWindow_witness :
    (extractMessages (some [.rowMsg (some ⟨false, some "oi", false, none⟩),
        .rowMsg (some ⟨true, some "tudo bem?", false, none⟩)]) 1).length ≤ 1 ∧
    extractMessages (some [.rowMsg (some ⟨false, some "oi", false, none⟩),
        .rowMsg (some ⟨true, some "tudo bem?", false, none⟩)]) 1 =
      [⟨"atendente", "", "", "tudo bem?"⟩] := by
  have h := C7_trailingWindow (some [.rowMsg (some ⟨false, some "oi", false, none⟩),
    .rowMsg (some ⟨true, some "tudo bem?", false, none⟩)]) 1 (by decide)
  exact ⟨h.1, h.2.trans (by decide)⟩

theorem msgScrollGo_spec (counts : Nat → Nat) (limit : Nat) :
    ∀ fuel attempt before,
      attempt + fuel = 10 →
      before = (if attempt = 0 then 0 else counts (attempt - 1)) →
      attempt ≤ (msgScrollGo counts limit attempt before fuel).1 ∧
      (msgScrollGo counts limit attempt before fuel).1 ≤ 10 ∧
      (∀ j, attempt ≤ j → j < (msgScrollGo counts limit attempt before fuel).1 →
        ¬ msgStop counts limit j) ∧
      ((msgScrollGo counts limit attempt before fuel).1 < 10 →
        msgStop counts limit (msgScrollGo counts limit attempt before fuel).1) := by
  intro fuel
  induction fuel with
  | zero =>
    intro attempt before h hb
    have ha : attempt = 10 := by omega
    subst ha
    simp only [msgScrollGo]
    exact ⟨Nat.le_refl _, Nat.le_refl _, fun j h1 h2 => absurd h2 (by omega),
      fun h10 => absurd h10 (by omega)⟩
  | succ fuel ih =>
    intro attempt before h hb
    by_cases hlim : limit ≤ counts attempt
    · simp only [msgScrollGo, if_pos hlim]
      exact ⟨Nat.le_refl _, by omega, fun j h1 h2 => absurd h2 (by omega),
        fun _ => Or.inl hlim⟩
    · by_cases hng : counts attempt = before ∧ 1 < attempt
      · simp only [msgScrollGo, if_neg hlim, if_pos hng]
        refine ⟨Nat.le_refl _, by omega, fun j h1 h2 => absurd h2 (by omega),
          fun _ => Or.inr ⟨hng.2, ?_⟩⟩
        have hne : attempt ≠ 0 := by omega
        rw [hb, if_neg hne] at hng
        exact hng.1
      · have hrec := ih (attempt + 1) (counts attempt) (by omega) (by simp)
        simp only [msgScrollGo, if_neg hlim, if_neg hng]
        refine ⟨by omega, hrec.2.1, fun j h1 h2 => ?_, hrec.2.2.2⟩
        rcases Nat.eq_or_lt_of_le h1 with he | hl
        · subst he
          intro hstop
          rcases hstop with hs | hs
          · exact hlim hs
          · refine hng ⟨?_, hs.1⟩
            rw [hb, if_neg (by omega)]
            exact hs.2
        · exact hrec.2.2.1 j hl h2

theorem listScrollGo_spec (counts : Nat → Nat) (target : Nat) :
    ∀ fuel i prev,
      i + fuel = 10 →
      prev = (if i = 0 then 0 else counts (i - 1)) →
      i ≤ (listScrollGo counts target i prev fuel).1 ∧
      (listScrollGo counts target i prev fuel).1 ≤ 10 ∧
      (∀ j, i ≤ j → j < (listScrollGo counts target i prev fuel).1 →
        ¬ listStop counts target j) ∧
      ((listScrollGo counts target i prev fuel).1 < 10 →
        listStop counts target (listScrollGo counts target i prev fuel).1) := by
  intro fuel
  induction fuel with
  | zero =>
    intro i prev h hp
    have hi : i = 10 := by omega
    subst hi
    simp only [listScrollGo]
    exact ⟨Nat.le_refl _, Nat.le_refl _, fun j h1 h2 => absurd h2 (by omega),
      fun h10 => absurd h10 (by omega)⟩
  | succ fuel ih =>
    intro i prev h hp
    by_cases hlim : target ≤ counts i
    · simp only [listScrollGo, if_pos hlim]
      exact ⟨Nat.le_refl _, by omega, fun j h1 h2 => absurd h2 (by omega),
        fun _ => Or.inl hlim⟩
    · by_cases hng : counts i = prev
      · simp only [listScrollGo, if_neg hlim, if_pos hng]
        refine ⟨Nat.le_refl _, by omega, fun j h1 h2 => absurd h2 (by omega),
          fun _ => Or.inr ?_⟩
        rw [hp] at hng
        exact hng
      · have hrec := ih (i + 1) (counts i) (by omega) (by simp)
        simp only [listScrollGo, if_neg hlim, if_neg hng]
        refine ⟨by omega, hrec.2.1, fun j h1 h2 => ?_, hrec.2.2.2⟩
        rcases Nat.eq_or_lt_of_le h1 with he | hl
        · subst he
          intro hstop
          rcases hstop with hs | hs
          · exact hlim hs
          · refine hng ?_
            rw [hp]
            exact hs
        · exact hrec.2.2.1 j hl h2

/-- C8 counterexample: on the identical observation sequence (a constant
count of 5, cap 100 never reached, so every pair of consecutive iterations
shows no growth) the conversation loop performs 2 scroll iterations while
the chat-list loop performs 1 — so the two loops do not stop "exactly
when" one and the same no-growth condition holds: the conversation loop's
`scrollAttempt > 1` guard makes it scroll once more past the first
no-growth pair. -/
theorem C8_counterexample :
    msgScrollLoop (fun _ => 5) 100 = (2, StopReason.noGrowth) ∧
    listScrollLoop (fun _ => 5) 100 = (1, StopReason.noGrowth) ∧
    (msgScrollLoop (fun _ => 5) 100).1 ≠ (listScrollLoop (fun _ => 5) 100).1 := by
  exact ⟨by decide, by decide, by decide⟩

/-- C8 as amended: each lazy-load scroll loop performs at most 10
iterations, and stops early exactly when its own stop condition first
holds: for the conversation loop, the loaded count reached the limit or —
from the third iteration on — the observed count equals the previous
iteration's; for the chat-list loop, the count reached the cap or the
observed count equals the previous iteration's (taken as 0 before the
first iteration). -/
theorem C8_scrollLoops (counts cc : Nat → Nat) (limit target : Nat) :
    ((msgScrollLoop counts limit).1 ≤ 10 ∧
     (∀ j, j < (msgScrollLoop counts limit).1 → ¬ msgStop counts limit j) ∧
     ((msgScrollLoop counts limit).1 < 10 →
       msgStop counts limit (msgScrollLoop counts limit).1)) ∧
    ((listScrollLoop cc target).1 ≤ 10 ∧
     (∀ j, j < (listScrollLoop cc target).1 → ¬ listStop cc target j) ∧
     ((listScrollLoop cc target).1 < 10 →
       listStop cc target (listScrollLoop cc target).1)) := by
  have hm := msgScrollGo_spec counts limit 10 0 0 rfl (by simp)
  have hl := listScrollGo_spec cc target 10 0 0 rfl (by simp)
  exact ⟨⟨hm.2.1, fun j hj => hm.2.2.1 j (Nat.zero_le j) hj, hm.2.2.2⟩,
    ⟨hl.2.1, fun j hj => hl.2.2.1 j (Nat.zero_le j) hj, hl.2.2.2⟩⟩

theorem C8_scrollLoops_witness :
    msgStop (fun k => k) 5 (msgScrollLoop (fun k => k) 5).1 ∧
    listStop (fun k => k) 5 (listScrollLoop (fun k => k) 5).1 ∧
    (msgScrollLoop (fun k => k) 5).1 ≤ 10 ∧
    ¬ msgStop (fun k => k) 5 3 := by
  have h := C8_scrollLoops (fun k => k) (fun k => k) 5 5
  refine ⟨h.1.2.2 (by decide), h.2.2.2 (by decide), h.1.1, h.1.2.1 3 (by decide)⟩

theorem extractChatsGo_length (cards : List ChatCard) :
    ∀ maxChats len, (extractChatsGo cards maxChats len).length ≤ maxChats - len := by
  induction cards with
  | nil => intro m l; simp [extractChatsGo]
  | cons card rest ih =>
    intro m l
    by_cases h : m ≤ l
    · simp [extractChatsGo, h]
    · simp only [extractChatsGo, if_neg h, List.length_cons]
      have := ih m (l + 1)
      omega

/-- C9: a `chatguru_list_chats` call caps the requested limit at 100 —
`effectiveLimit = min(limit, 100)`, so a request for 150 is served with an
effective limit of 100 — and the extracted list never holds more records
than that effective cap. -/
theorem C9_listCap (cards : List ChatCard) (limit : Nat) :
    effectiveLimit limit = min limit 100 ∧
    effectiveLimit 150 = 100 ∧
    (listChatsExtract cards limit).length ≤ effectiveLimit limit := by
  refine ⟨rfl, rfl, ?_⟩
  have h := extractChatsGo_length cards (effectiveLimit limit) 0
  simpa [listChatsExtract, extractChats] using h

theorem collectMsgs_skip_empty_row (c : MsgContainer)
    (htext : trimOrEmpty c.contentText = "") (haudio : c.hasAudio = false) :
    ∀ pre post d,
      collectMsgs (pre ++ MsgChild.rowMsg (some c) :: post) d =
        collectMsgs (pre ++ post) d := by
  intro pre
  induction pre with
  | nil =>
    intro post d
    simp [collectMsgs, htext, haudio]
  | cons x rest ih =>
    intro post d
    cases x with
    | dateLabel t => simpa [collectMsgs] using ih post (jsTrim t)
    | other => simpa [collectMsgs] using ih post d
    | rowMsg mc =>
      cases mc with
      | none => simpa [collectMsgs] using ih post d
      | some c2 => simp [collectMsgs, ih]

/-- C10: a rendered message row whose container has neither nonempty
(trimmed) text nor an audio element contributes nothing to the extracted
sequence, wherever it sits in the walk; a text-less row with audio yields
exactly one record with the fixed `"[Áudio]"` placeholder; a row with
nonempty text yields its own text, with no placeholder substitution. -/
theorem C10_nonTextRows (pre post : List MsgChild) (c : MsgContainer) (d : String) :
    (trimOrEmpty c.contentText = "" → c.hasAudio = false →
      collectMsgs (pre ++ MsgChild.rowMsg (some c) :: post) d =
        collectMsgs (pre ++ post) d) ∧
    (trimOrEmpty c.contentText = "" → c.hasAudio = true →
      collectMsgs (MsgChild.rowMsg (some c) :: post) d =
        { remetente := if c.isOutgoing then "atendente" else "cliente",
          horario := trimOrEmpty c.timestampText, data := d,
          texto := "[Áudio]" } :: collectMsgs post d) ∧
    (trimOrEmpty c.contentText ≠ "" →
      collectMsgs (MsgChild.rowMsg (some c) :: post) d =
        { remetente := if c.isOutgoing then "atendente" else "cliente",
          horario := trimOrEmpty c.timestampText, data := d,
          texto := trimOrEmpty c.contentText } :: collectMsgs post d) := by
  refine ⟨fun h1 h2 => collectMsgs_skip_empty_row c h1 h2 pre post d,
    fun h1 h2 => ?_, fun h1 => ?_⟩
  · simp [collectMsgs, h1, h2]
  · simp [collectMsgs, h1]

theorem C10_nonTextRows_witness :
    collectMsgs [MsgChild.dateLabel "Hoje",
        MsgChild.rowMsg (some ⟨false, none, false, none⟩),
        MsgChild.rowMsg (some ⟨false, some "oi", false, none⟩)] "" =
      collectMsgs [MsgChild.dateLabel "Hoje",
        MsgChild.rowMsg (some ⟨false, some "oi", false, none⟩)] "" ∧
    collectMsgs [MsgChild.rowMsg (some ⟨true, some "  ", true, some " 09:00 "⟩)] "Hoje" =
      [⟨"atendente", "09:00", "Hoje", "[Áudio]"⟩] ∧
    collectMsgs [MsgChild.rowMsg (some ⟨false, some " oi ", false, none⟩)] "Hoje" =
      [⟨"cliente", "", "Hoje", "oi"⟩] := by
  refine ⟨?_, ?_, ?_⟩
  · exact (C10_nonTextRows [MsgChild.dateLabel "Hoje"]
      [MsgChild.rowMsg (some ⟨false, some "oi", false, none⟩)]
      ⟨false, none, false, none⟩ "").1 (by decide) rfl
  · exact ((C10_nonTextRows [] [] ⟨true, some "  ", true, some " 09:00 "⟩ "Hoje").2.1
      (by decide) rfl).trans (by decide)
  · exact ((C10_nonTextRows [] [] ⟨false, some " oi ", false, none⟩ "Hoje").2.2
      (by decide)).trans (by decide)
